import Mathlib

/-!
Verification of the pecyn envelope codec (`src/pecyn/__init__.py`).

The envelope format prepends a 2-byte header (version byte, flags bitset)
to a payload produced by an external object-model codec (msgpack), with
optional gzip compression and optional Base64 transport encoding.  The
external collaborators (msgpack, gzip, binascii Base64) are modelled as
black-box codec functions bundled in a `Codecs` structure, exactly as the
specification treats them; the envelope logic itself is translated
line-for-line from the source.
-/

namespace Pecyn

/-- Model of Python values that callers may pass as the `compress`
argument (the source branches on the argument's truthiness, so only a
truthiness-faithful fragment of Python values is needed). -/
inductive Py where
  | none
  | bool (b : Bool)
  | int (n : Int)
  | str (s : String)
deriving DecidableEq, Repr

/-- Python truthiness for the modelled values: `None` and `False` are
falsy, an int is truthy iff nonzero, a string iff nonempty. -/
def Py.truthy : Py → Bool
  | Py.none => false
  | Py.bool b => b
  | Py.int n => decide (n ≠ 0)
  | Py.str s => decide (s.length ≠ 0)

/-- Model of the Python exceptions raised by the module and its
collaborators: `ValueError` (the spec's FormatError), gzip decompression
failures, and msgpack codec failures. -/
inductive PyError where
  | valueError (msg : String)
  | gzipError (msg : String)
  | msgpackError (msg : String)
deriving DecidableEq, Repr

/-- Black-box external collaborators, as bundles of pure functions:
the object-model codec (`msgpack.packb` / `msgpack.unpackb`), the
compression codec (`gzip.compress` / `gzip.decompress`) and the Base64
transport encoding (`binascii.b2a_base64` / `binascii.a2b_base64`).
Bytes are modelled as `List Nat`. -/
structure Codecs (Doc : Type) where
  msgpack_packb : Doc → List Nat
  msgpack_unpackb : List Nat → Except PyError Doc
  gzip_compress : List Nat → List Nat
  gzip_decompress : List Nat → Except PyError (List Nat)
  b2a_base64 : List Nat → String
  a2b_base64 : String → Except PyError (List Nat)

/-- `_PACK_VERSION = 0x00` -/
def PACK_VERSION : Nat := 0x00

/-- `_FLAG_MSGPACK = 0x01 << 0` -/
def FLAG_MSGPACK : Nat := 0x01 <<< 0

/-- `_FLAG_GZIP = 0x01 << 4` -/
def FLAG_GZIP : Nat := 0x01 <<< 4

/-- `_HEADER_BLOCK_SIZE = 2` -/
def HEADER_BLOCK_SIZE : Nat := 2

/-- `packb(doc, compress=None)`: serialize a document to envelope bytes.
Sets the MSGPACK flag, msgpack-encodes the document, gzip-compresses the
blob and sets the GZIP flag when `compress` is truthy, and prepends the
2-byte header `[version, flags]`. -/
def packb {Doc : Type} (c : Codecs Doc) (doc : Doc)
    (compress : Py := Py.none) : List Nat :=
  let flags := FLAG_MSGPACK
  let blob := c.msgpack_packb doc
  let p := if compress.truthy
    then (c.gzip_compress blob, flags ||| FLAG_GZIP)
    else (blob, flags)
  let header_block := [PACK_VERSION, p.2]
  header_block ++ p.1

/-- `pack(doc, compress=None)`: `packb` followed by Base64 text encoding
(`b2a_base64` with `newline=False`, decoded to str). -/
def pack {Doc : Type} (c : Codecs Doc) (doc : Doc)
    (compress : Py := Py.none) : String :=
  c.b2a_base64 (packb c doc compress)

/-- `unpackb(record)`: deserialize envelope bytes.  Raises
`ValueError('Invalid header block')` when the input is shorter than the
2-byte header; raises `ValueError('Unsupported pack version: ...')` when
the version byte differs from `_PACK_VERSION`; gzip-decompresses the
payload when the GZIP flag is set (propagating any decompression error);
raises `ValueError('Unsupported document format: ...')` when the MSGPACK
flag is unset; otherwise msgpack-decodes the payload. -/
def unpackb {Doc : Type} (c : Codecs Doc) : List Nat → Except PyError Doc
  | version :: flags :: rest =>
    if version ≠ PACK_VERSION then
      Except.error (PyError.valueError
        ("Unsupported pack version: " ++ toString version ++ " != "
          ++ toString PACK_VERSION))
    else
      (if flags &&& FLAG_GZIP ≠ 0 then c.gzip_decompress rest
       else Except.ok rest).bind (fun blob =>
        if flags &&& FLAG_MSGPACK = 0 then
          Except.error (PyError.valueError
            ("Unsupported document format: " ++ toString flags))
        else
          c.msgpack_unpackb blob)
  | _ => Except.error (PyError.valueError "Invalid header block")

/-- `unpack(record)`: Base64 decode (`a2b_base64`) followed by `unpackb`. -/
def unpack {Doc : Type} (c : Codecs Doc) (record : String) :
    Except PyError Doc :=
  (c.a2b_base64 record).bind (unpackb c)

/-- A concrete instantiation of the black-box collaborators over
`Doc := Nat`, used to evaluate the theorems on concrete inputs: msgpack
encodes a number as a singleton byte list, gzip prepends the real gzip
magic bytes `31, 139`, and Base64 maps each byte to one character. -/
def demoCodecs : Codecs Nat where
  msgpack_packb := fun n => [n]
  msgpack_unpackb := fun bs =>
    match bs with
    | [n] => Except.ok n
    | _ => Except.error (PyError.msgpackError "unpack failed")
  gzip_compress := fun bs => 31 :: 139 :: bs
  gzip_decompress := fun bs =>
    match bs with
    | 31 :: 139 :: rest => Except.ok rest
    | _ => Except.error (PyError.gzipError "Not a gzipped file")
  b2a_base64 := fun bs => String.mk (bs.map (fun n => Char.ofNat (n + 48)))
  a2b_base64 := fun s => Except.ok (s.toList.map (fun ch => ch.toNat - 48))

/-- Core round-trip lemma: when the msgpack codec round-trips the
document and the gzip codec round-trips the msgpack blob, decoding the
envelope produced by encoding recovers the document, for either
compression setting. -/
theorem unpackb_packb_of_ok {Doc : Type} (c : Codecs Doc) (d : Doc)
    (compress : Bool)
    (hmp : c.msgpack_unpackb (c.msgpack_packb d) = Except.ok d)
    (hgz : c.gzip_decompress (c.gzip_compress (c.msgpack_packb d))
      = Except.ok (c.msgpack_packb d)) :
    unpackb c (packb c d (Py.bool compress)) = Except.ok d := by
  cases compress <;>
    simp [packb, unpackb, Py.truthy, PACK_VERSION, FLAG_MSGPACK, FLAG_GZIP,
      hmp, hgz, Except.bind]

/-- C1: for every document representable by the object-model codec and
either compress setting, `unpackb (packb d compress) = d`: the byte-level
envelope round-trips, given that the msgpack codec round-trips the
document and the gzip codec round-trips the msgpack blob. -/
theorem C1_roundtrip_bytes {Doc : Type} (c : Codecs Doc) (d : Doc)
    (compress : Bool)
    (hmp : c.msgpack_unpackb (c.msgpack_packb d) = Except.ok d)
    (hgz : c.gzip_decompress (c.gzip_compress (c.msgpack_packb d))
      = Except.ok (c.msgpack_packb d)) :
    unpackb c (packb c d (Py.bool compress)) = Except.ok d :=
  unpackb_packb_of_ok c d compress hmp hgz

/-- Witness for C1 at the concrete codecs, document `7`, compressed. -/
theorem C1_roundtrip_bytes_witness :
    unpackb demoCodecs (packb demoCodecs 7 (Py.bool true)) = Except.ok 7 :=
  C1_roundtrip_bytes demoCodecs 7 true rfl rfl

/-- C2: the text-level round-trip `unpack (pack d compress) = d` holds
for either compress setting, given the codec round-trip facts and that
Base64 decoding inverts Base64 encoding on the envelope bytes. -/
theorem C2_roundtrip_text {Doc : Type} (c : Codecs Doc) (d : Doc)
    (compress : Bool)
    (hmp : c.msgpack_unpackb (c.msgpack_packb d) = Except.ok d)
    (hgz : c.gzip_decompress (c.gzip_compress (c.msgpack_packb d))
      = Except.ok (c.msgpack_packb d))
    (hb64 : c.a2b_base64 (c.b2a_base64 (packb c d (Py.bool compress)))
      = Except.ok (packb c d (Py.bool compress))) :
    unpack c (pack c d (Py.bool compress)) = Except.ok d := by
  rw [unpack, pack, hb64]
  exact unpackb_packb_of_ok c d compress hmp hgz

/-- Witness for C2 at the concrete codecs, document `7`, compressed. -/
theorem C2_roundtrip_text_witness :
    unpack demoCodecs (pack demoCodecs 7 (Py.bool true)) = Except.ok 7 :=
  C2_roundtrip_text demoCodecs 7 true rfl rfl rfl

/-- C3: the envelope bytes start with version byte `0x00`, then flags
byte `0x11` (MSGPACK and GZIP bits) when compressing or `0x01` (MSGPACK
bit only) when not, followed by the gzip-compressed msgpack blob
respectively the raw msgpack blob. -/
theorem C3_header_layout {Doc : Type} (c : Codecs Doc) (d : Doc) :
    packb c d (Py.bool true)
      = 0x00 :: 0x11 :: c.gzip_compress (c.msgpack_packb d) ∧
    packb c d (Py.bool false) = 0x00 :: 0x01 :: c.msgpack_packb d := by
  constructor <;> rfl

/-- C4: an input of length ≥ 2 with version byte 0 and the MSGPACK flag
bit unset fails with `ValueError('Unsupported document format: ...')`;
the check runs after decompression, so even a GZIP-flagged payload that
decompresses successfully still fails with this error. -/
theorem C4_missing_msgpack_bit {Doc : Type} (c : Codecs Doc)
    (flags : Nat) (rest blob : List Nat)
    (hbit : flags &&& FLAG_MSGPACK = 0)
    (hgz : flags &&& FLAG_GZIP ≠ 0 → c.gzip_decompress rest = Except.ok blob) :
    unpackb c (0 :: flags :: rest)
      = Except.error (PyError.valueError
          ("Unsupported document format: " ++ toString flags)) := by
  by_cases h : flags &&& FLAG_GZIP ≠ 0
  · simp [unpackb, PACK_VERSION, h, hgz h, hbit, Except.bind]
  · simp [unpackb, PACK_VERSION, h, hbit, Except.bind]

/-- Witness for C4: flags byte `0x10` (GZIP set, MSGPACK unset) on a
decompressible payload still fails with the document-format error. -/
theorem C4_missing_msgpack_bit_witness :
    unpackb demoCodecs (0 :: 16 :: [31, 139])
      = Except.error (PyError.valueError
          ("Unsupported document format: " ++ toString 16)) :=
  C4_missing_msgpack_bit demoCodecs 16 [31, 139] []
    (by decide) (fun _ => rfl)

/-- Counterexample to C5 as stated: the envelope `[0x00, 0x03, 42]` has
reserved bit 1 set, yet `unpackb` decodes it successfully instead of
failing to validate. -/
theorem C5_reserved_bits_counterexample :
    unpackb demoCodecs [0, 3, 42] = Except.ok 42 := rfl

/-- C5 (amended): reserved flag bits are NOT validated: with version 0,
the MSGPACK bit set and the GZIP bit unset, `unpackb` decodes the payload
regardless of which reserved bits are set. -/
theorem C5_reserved_bits_not_validated {Doc : Type} (c : Codecs Doc)
    (flags : Nat) (rest : List Nat)
    (hmp : flags &&& FLAG_MSGPACK ≠ 0)
    (hgz : flags &&& FLAG_GZIP = 0) :
    unpackb c (0 :: flags :: rest) = c.msgpack_unpackb rest := by
  simp [unpackb, PACK_VERSION, FLAG_MSGPACK, FLAG_GZIP] at hmp hgz ⊢
  simp [hmp, hgz, Except.bind]

/-- Witness for amended C5: flags `0x03` (reserved bit 1 set) decode as
the plain msgpack payload. -/
theorem C5_reserved_bits_not_validated_witness :
    unpackb demoCodecs (0 :: 3 :: [42]) = demoCodecs.msgpack_unpackb [42] :=
  C5_reserved_bits_not_validated demoCodecs 3 [42] (by decide) (by decide)

/-- C6: with version 0, MSGPACK bit set, GZIP bit unset and any
combination of reserved bits set, `unpackb` succeeds and returns the
decoded document: unknown flag bits are not a validation error. -/
theorem C6_reserved_bits_forward_compat {Doc : Type} (c : Codecs Doc)
    (d : Doc) (flags : Nat) (rest : List Nat)
    (hmp : flags &&& FLAG_MSGPACK ≠ 0)
    (hgz : flags &&& FLAG_GZIP = 0)
    (hok : c.msgpack_unpackb rest = Except.ok d) :
    unpackb c (0 :: flags :: rest) = Except.ok d := by
  simp [unpackb, PACK_VERSION, FLAG_MSGPACK, FLAG_GZIP] at hmp hgz ⊢
  simp [hmp, hgz, hok, Except.bind]

/-- Witness for C6: flags `0xEF` (every bit except GZIP) decode fine. -/
theorem C6_reserved_bits_forward_compat_witness :
    unpackb demoCodecs (0 :: 0xEF :: [42]) = Except.ok 42 :=
  C6_reserved_bits_forward_compat demoCodecs 42 0xEF [42]
    (by decide) (by decide) rfl

/-- C7: any input shorter than the 2-byte header fails with
`ValueError('Invalid header block')`, never partially parsing. -/
theorem C7_short_input {Doc : Type} (c : Codecs Doc) (record : List Nat)
    (h : record.length < HEADER_BLOCK_SIZE) :
    unpackb c record
      = Except.error (PyError.valueError "Invalid header block") := by
  match record with
  | [] => rfl
  | [_] => rfl
  | _ :: _ :: _ => exact absurd h (by simp [HEADER_BLOCK_SIZE])

/-- Witness for C7 at the empty input. -/
theorem C7_short_input_witness :
    unpackb demoCodecs []
      = Except.error (PyError.valueError "Invalid header block") :=
  C7_short_input demoCodecs [] (by decide)

/-- C8: any input of length ≥ 2 whose version byte is not 0 fails with
the version-mismatch `ValueError`, regardless of the rest of the
input. -/
theorem C8_bad_version {Doc : Type} (c : Codecs Doc)
    (version flags : Nat) (rest : List Nat) (h : version ≠ 0) :
    unpackb c (version :: flags :: rest)
      = Except.error (PyError.valueError
          ("Unsupported pack version: " ++ toString version ++ " != "
            ++ toString PACK_VERSION)) := by
  simp only [unpackb, PACK_VERSION]
  rw [if_pos h]

/-- Witness for C8 at version byte 1. -/
theorem C8_bad_version_witness :
    unpackb demoCodecs (1 :: 1 :: [42])
      = Except.error (PyError.valueError
          ("Unsupported pack version: " ++ toString 1 ++ " != "
            ++ toString PACK_VERSION)) :=
  C8_bad_version demoCodecs 1 1 [42] (by decide)

/-- C9: with a valid version-0 header whose GZIP bit is set, a payload
on which the compression codec fails makes `unpackb` fail with exactly
that decompression error, propagated unmasked. -/
theorem C9_gzip_error_propagated {Doc : Type} (c : Codecs Doc)
    (flags : Nat) (rest : List Nat) (e : PyError)
    (hgz : flags &&& FLAG_GZIP ≠ 0)
    (herr : c.gzip_decompress rest = Except.error e) :
    unpackb c (0 :: flags :: rest) = Except.error e := by
  simp [unpackb, PACK_VERSION, hgz, herr, Except.bind]

/-- Witness for C9: flags `0x11` with a payload lacking the gzip magic
propagates the gzip error. -/
theorem C9_gzip_error_propagated_witness :
    unpackb demoCodecs (0 :: 17 :: [5])
      = Except.error (PyError.gzipError "Not a gzipped file") :=
  C9_gzip_error_propagated demoCodecs 17 [5]
    (PyError.gzipError "Not a gzipped file") (by decide) rfl

/-- C10: `packb`/`pack` treat the compress argument by truthiness: any
falsy value (the default `None`, `False`, `0`, ...) yields the same
output as `compress = False`, omitting the argument yields that same
output (the default is `None`), and any truthy value yields the same
output as `compress = True`. -/
theorem C10_compress_truthiness {Doc : Type} (c : Codecs Doc) (d : Doc)
    (v w : Py) (hv : v.truthy = false) (hw : w.truthy = true) :
    packb c d v = packb c d (Py.bool false) ∧
    pack c d v = pack c d (Py.bool false) ∧
    packb c d = packb c d (Py.bool false) ∧
    pack c d = pack c d (Py.bool false) ∧
    packb c d w = packb c d (Py.bool true) ∧
    pack c d w = pack c d (Py.bool true) := by
  have hnone : Py.none.truthy = false := rfl
  have hfalse : (Py.bool false).truthy = false := rfl
  have htrue : (Py.bool true).truthy = true := rfl
  refine ⟨?_, ?_, ?_, ?_, ?_, ?_⟩ <;>
    simp [packb, pack, hv, hw, hnone, hfalse, htrue]

/-- Witness for C10 at the falsy value `0` and the truthy value `2`. -/
theorem C10_compress_truthiness_witness :
    packb demoCodecs 7 (Py.int 0) = packb demoCodecs 7 (Py.bool false) ∧
    pack demoCodecs 7 (Py.int 0) = pack demoCodecs 7 (Py.bool false) ∧
    packb demoCodecs 7 = packb demoCodecs 7 (Py.bool false) ∧
    pack demoCodecs 7 = pack demoCodecs 7 (Py.bool false) ∧
    packb demoCodecs 7 (Py.int 2) = packb demoCodecs 7 (Py.bool true) ∧
    pack demoCodecs 7 (Py.int 2) = pack demoCodecs 7 (Py.bool true) :=
  C10_compress_truthiness demoCodecs 7 (Py.int 0) (Py.int 2)
    (by decide) (by decide)

end Pecyn
